import Mathlib

/-!
Verification of the AI agent system (command dispatcher + model client).

The definitions below are a shallow embedding of `src/agent.py` and
`src/llm.py`.  External effects (the HTTP transport and the subprocess
runner) are passed in as explicit oracles, so every function is pure and
executable.
-/

namespace AgentSpec

/-- Python whitespace class `\s` (ASCII part, which is all the code uses):
space, tab, newline, carriage return, vertical tab, form feed. -/
def isPySpace (c : Char) : Bool :=
  c == ' ' || c == '\t' || c == '\n' || c == '\r' || c == Char.ofNat 11 || c == Char.ofNat 12

/-- Case-insensitive character comparison, as under `re.IGNORECASE`. -/
def lowerEq (p c : Char) : Bool :=
  p.toLower == c.toLower

/-- Match a literal (first argument) case-insensitively at the head of the
input; on success return the remaining input. -/
def matchLitCI : List Char → List Char → Option (List Char)
  | [], s => some s
  | _ :: _, [] => none
  | p :: ps, c :: cs => if lowerEq p c then matchLitCI ps cs else none

/-- Split the input into its maximal leading run of `\s` characters and the
rest (the greedy `\s*`). -/
def spanSpaces : List Char → List Char × List Char
  | [] => ([], [])
  | c :: cs =>
    if isPySpace c then ((c :: (spanSpaces cs).1), (spanSpaces cs).2)
    else ([], c :: cs)

/-- Python `str.strip()`: drop whitespace from both ends. -/
def pyStrip (s : List Char) : List Char :=
  ((s.dropWhile isPySpace).reverse.dropWhile isPySpace).reverse

/-- `str.strip()` on `String`. -/
def pyStripStr (s : String) : String :=
  String.mk (pyStrip s.data)

/-- The lazy capture `(.*?)(?:\n|$)` with `re.DOTALL`: everything up to the
first newline (exclusive) or the end of the text. -/
def captureLine : List Char → List Char
  | [] => []
  | c :: cs => if c = '\n' then [] else c :: captureLine cs

/-- The lazy capture `(.*?)(?:\n\n|$)` with `re.DOTALL`: everything up to the
first blank line (exclusive) or the end of the text.  (The case where `$`
matches just before a trailing newline differs from end-of-text only by a
trailing newline, which the subsequent `strip()` removes.) -/
def captureBlock : List Char → List Char
  | [] => []
  | c :: cs =>
    if c = '\n' ∧ cs.head? = some '\n' then [] else c :: captureBlock cs

def actionLit : List Char := ("ACTION:").data

/-- Try to match one pattern `ACTION:\s*<kw>\s*\n<fld>\s*(capture)` at the
head of `s` (the anchored step of `re.search`).  The backtracking analysis of
`<kw>\s*\n<fld>` is deterministic: since `<fld>` starts with a non-whitespace
character and `\n` is whitespace, the greedy `\s*\n` can only succeed by
consuming the whole whitespace run after `<kw>`, whose last character must be
a newline, with `<fld>` immediately after the run. -/
def matchBlockAt (kw fld : List Char) (block : Bool) (s : List Char) : Option String :=
  match matchLitCI actionLit s with
  | none => none
  | some s1 =>
    match matchLitCI kw (spanSpaces s1).2 with
    | none => none
    | some s3 =>
      if (spanSpaces s3).1.getLast? = some '\n' then
        match matchLitCI fld (spanSpaces s3).2 with
        | none => none
        | some s5 =>
          let body := (spanSpaces s5).2
          some (String.mk (pyStrip (if block then captureBlock body else captureLine body)))
      else none

/-- `re.search`: try the pattern at every start position, leftmost first. -/
def searchPat (kw fld : List Char) (block : Bool) : List Char → Option String
  | [] => none
  | c :: cs =>
    match matchBlockAt kw fld block (c :: cs) with
    | some r => some r
    | none => searchPat kw fld block cs

/-- Search for the shell pattern
`ACTION:\s*shell\s*\nCOMMAND:\s*(.*?)(?:\n|$)` (IGNORECASE, DOTALL);
returns the stripped group 1. -/
def searchShell (s : List Char) : Option String :=
  searchPat (("shell").data) (("COMMAND:").data) false s

/-- Search for the respond pattern
`ACTION:\s*respond\s*\nCONTENT:\s*(.*?)(?:\n\n|$)` (IGNORECASE, DOTALL);
returns the stripped group 1. -/
def searchRespond (s : List Char) : Option String :=
  searchPat (("respond").data) (("CONTENT:").data) true s

/-- Search for the error pattern
`ACTION:\s*error\s*\nREASON:\s*(.*?)(?:\n|$)` (IGNORECASE, DOTALL);
returns the stripped group 1. -/
def searchError (s : List Char) : Option String :=
  searchPat (("error").data) (("REASON:").data) false s

/-- The typed action extracted from a model reply
(the dicts `{"type": "shell_command"/"response"/"error", ...}` of
`agent.py`). -/
inductive Action where
  | shell_command (command : String)
  | response (content : String)
  | error (error : String)
  deriving DecidableEq

/-- `Agent._parse_llm_response`: the three patterns are searched over the
whole text in the fixed order shell, respond, error; if none matches, the
whole text is wrapped as a plain response. -/
def parse_llm_response (response : String) : Action :=
  match searchShell response.data with
  | some command => Action.shell_command command
  | none =>
    match searchRespond response.data with
    | some content => Action.response content
    | none =>
      match searchError response.data with
      | some e => Action.error e
      | none => Action.response response

/-- Outcome of one subprocess run, the oracle abstracting
`subprocess.Popen` + `communicate(timeout=30)` in `agent.py`:
normal completion with captured stdout/stderr/exit code, a
`TimeoutExpired`, or an exception while spawning/running. -/
inductive ProcOutcome where
  | completed (stdout stderr : String) (returncode : Int)
  | timedOut
  | spawnFailed (msg : String)
  deriving DecidableEq

/-- The result dict built by `Agent._execute_action` /
`Agent._execute_shell_command`.  Each Python key becomes an optional field;
a field is `none` exactly when the key is absent from the dict. -/
structure ExecResult where
  status : Option String := none
  stdout : Option String := none
  stderr : Option String := none
  return_code : Option Int := none
  output : Option String := none
  error : Option String := none
  deriving DecidableEq

/-- `Agent._execute_shell_command`: empty command short-circuits with a bare
`error` dict; otherwise the subprocess outcome is converted to a result dict
(`status` is `error` when the exit code is nonzero, `success` otherwise;
timeout and spawn failure give `status: error` with an `error` message). -/
def execute_shell_command (runner : String → ProcOutcome) (command : String) : ExecResult :=
  if command = ("") then { error := some ("Empty command") }
  else
    match runner command with
    | ProcOutcome.completed out err code =>
      if code ≠ 0 then
        { stdout := some out, stderr := some err, return_code := some code,
          status := some ("error") }
      else
        { stdout := some out, stderr := some err, return_code := some code,
          status := some ("success") }
    | ProcOutcome.timedOut =>
      { status := some ("error"),
        error := some ("Command execution timed out after 30 seconds") }
    | ProcOutcome.spawnFailed m =>
      { status := some ("error"),
        error := some (("Command execution failed: ") ++ m) }

/-- `Agent._execute_action`: dispatch on the action type.  The shell case
strips the command first; the respond case returns a bare `output` dict; the
error case returns a bare `error` dict. -/
def execute_action (runner : String → ProcOutcome) (a : Action) : ExecResult :=
  match a with
  | Action.shell_command command => execute_shell_command runner (pyStripStr command)
  | Action.response content => { output := some content }
  | Action.error e => { error := some e }

/-- The envelope returned by `Agent.process_command`. -/
structure Envelope where
  status : String
  action : Option String := none
  result : Option ExecResult := none
  error : Option String := none
  deriving DecidableEq

/-- The `"type"` tag of an action (`action.get("type", "response")`). -/
def actionType : Action → String
  | Action.shell_command _ => ("shell_command")
  | Action.response _ => ("response")
  | Action.error _ => ("error")

/-- The fast-path classifier of `Agent.process_command` line 89-90:
`command.startswith` on the six literal verbs, applied to the RAW command. -/
def startsWithL : List Char → List Char → Bool
  | _, [] => true
  | [], _ :: _ => false
  | c :: cs, p :: ps => c == p && startsWithL cs ps

def fastPath (command : String) : Bool :=
  startsWithL command.data (("ls").data) || startsWithL command.data (("cd ").data) ||
  startsWithL command.data (("pwd").data) || startsWithL command.data (("cat ").data) ||
  startsWithL command.data (("date").data) || startsWithL command.data (("echo ").data)

/-- `Agent._create_system_prompt`: the fixed instructional template with the
raw command interpolated. -/
def create_system_prompt (command : String) : String :=
  ("\nYou are helping process user commands in a command-line interface.\n\nUser command: \"")
    ++ command ++
  ("\"\n\nBased on this command, do one of these:\n1. If it\x27s a system command (like checking time, listing files, etc.), reply with:\n   ACTION: shell\n   COMMAND: <the exact shell command to run>\n\n2. If it\x27s a question or conversation, reply with:\n   ACTION: respond\n   CONTENT: <your helpful response>\n\n3. If there\x27s an error or you can\x27t process it, reply with:\n   ACTION: error\n   REASON: <explanation of the error>\n\nReply using ONLY this format, with no additional text.\n")

/-- `Agent.process_command`.  The model client is the oracle `gen`
(`Except.error` models `generate` raising, which the `except` clause of the
dispatcher converts into an error envelope).  The raw command is
appended to the history before anything else; the fast path synthesizes
`shell_command` directly, otherwise the prompt is sent to the model and the
reply is parsed.  Returns (new history, envelope). -/
def process_command (gen : String → Except String String) (runner : String → ProcOutcome)
    (hist : List String) (command : String) : List String × Envelope :=
  let history := hist ++ [command]
  if fastPath command then
    (history,
      { status := ("success"), action := some (actionType (Action.shell_command command)),
        result := some (execute_action runner (Action.shell_command command)) })
  else
    match gen (create_system_prompt command) with
    | Except.error e => (history, { status := ("error"), error := some e })
    | Except.ok llm_response =>
      (history,
        { status := ("success"), action := some (actionType (parse_llm_response llm_response)),
          result := some (execute_action runner (parse_llm_response llm_response)) })

/-- The three operation modes of `QwenModel` in `llm.py`. -/
inductive Mode where
  | ollama
  | api
  | direct
  deriving DecidableEq

/-- Python truthiness of an optional string argument: `None` and the empty
string are falsy. -/
def truthy : Option String → Bool
  | none => false
  | some s => !(s == (""))

/-- `QwenModel.__init__` mode selection: `if ollama_url: ... elif api_url:
... elif model_path: ... else: raise ValueError(...)`.  (The `model_name`
argument does not influence the selection.) -/
def qwenInit (model_path api_url ollama_url : Option String) : Except String Mode :=
  if truthy ollama_url then Except.ok Mode.ollama
  else if truthy api_url then Except.ok Mode.api
  else if truthy model_path then Except.ok Mode.direct
  else Except.error ("Either model_path, api_url, or ollama_url must be provided")

/-- The Python exceptions distinguished by the `except` clauses of `llm.py`:
`requests.exceptions.RequestException`, `json.JSONDecodeError`, and any
other `Exception`. -/
inductive PyExn where
  | requestException (msg : String)
  | jsonDecodeError (msg : String)
  | otherError (msg : String)
  deriving DecidableEq

deriving instance DecidableEq for Except

/-- Outcome of one `requests.post` call: either the call raised, or it
returned a status code together with the outcome of `response.json()`
(which itself may raise a decode error). -/
inductive HttpResult (β : Type) where
  | raised (e : PyExn)
  | response (status : Nat) (json : Except PyExn β)
  deriving DecidableEq

/-- JSON body shape of the Ollama `/api/completion` endpoint: an optional
`response` field. -/
structure CompletionBody where
  response : Option String
  deriving DecidableEq

/-- The `message` object of an Ollama `/api/chat` body: optional
`content`. -/
structure ChatMessage where
  content : Option String
  deriving DecidableEq

/-- JSON body shape of the Ollama `/api/chat` endpoint: an optional
`message` object. -/
structure ChatBody where
  message : Option ChatMessage
  deriving DecidableEq

/-- JSON body shape of the remote API `/query` endpoint: an optional
`response` field. -/
structure ApiBody where
  response : Option String
  deriving DecidableEq

/-- The string returned when the chat endpoint yields no usable content:
embeds the status code of the chat response. -/
def ollamaStatusMsg (status : Nat) : String :=
  ("Error: Could not get a valid response from Ollama API. Status code: ") ++ toString status

/-- The handlers of the second `try` block of
`QwenModel._generate_via_ollama`: every caught exception is rendered as
returned text. -/
def ollamaHandle : PyExn → Except PyExn String
  | PyExn.requestException m => Except.ok (("Error communicating with Ollama API server: ") ++ m)
  | PyExn.jsonDecodeError _ => Except.ok ("Error parsing response from Ollama API server")
  | PyExn.otherError m => Except.ok (("Unexpected error with Ollama: ") ++ m)

/-- The second `try` block of `QwenModel._generate_via_ollama` (the
`/api/chat` attempt): on HTTP 200 with `message.content` present return the
content, otherwise fall through to the status-code error string; any raised
exception is converted to text by the matching handler.  `response.json()`
is only called inside the 200 branch. -/
def ollama_chat_stage (chat : HttpResult ChatBody) : Except PyExn String :=
  match chat with
  | HttpResult.raised e => ollamaHandle e
  | HttpResult.response status json =>
    if status = 200 then
      match json with
      | Except.error e => ollamaHandle e
      | Except.ok body =>
        match body.message with
        | some m =>
          match m.content with
          | some c => Except.ok c
          | none => Except.ok (ollamaStatusMsg status)
        | none => Except.ok (ollamaStatusMsg status)
    else Except.ok (ollamaStatusMsg status)

/-- `QwenModel._generate_via_ollama`: try `/api/completion` first; on HTTP
200 with a `response` field, return it immediately.  In every other case
(raised exception, json decode error, non-200 status, missing field) control
falls through to the `/api/chat` stage. -/
def generate_via_ollama (comp : HttpResult CompletionBody) (chat : HttpResult ChatBody) :
    Except PyExn String :=
  match comp with
  | HttpResult.raised _ => ollama_chat_stage chat
  | HttpResult.response status json =>
    if status = 200 then
      match json with
      | Except.error _ => ollama_chat_stage chat
      | Except.ok body =>
        match body.response with
        | some text => Except.ok text
        | none => ollama_chat_stage chat
    else ollama_chat_stage chat

/-- The text produced when the first attempt did not succeed is exactly a
function of the completion outcome: `some text` when `/api/completion`
returned HTTP 200 with a `response` field, `none` otherwise. -/
def compFirstText : HttpResult CompletionBody → Option String
  | HttpResult.raised _ => none
  | HttpResult.response status json =>
    if status = 200 then
      match json with
      | Except.error _ => none
      | Except.ok body => body.response
    else none

/-- The handlers of `QwenModel._generate_via_api`. -/
def apiHandle : PyExn → Except PyExn String
  | PyExn.requestException m => Except.ok (("Error communicating with API server: ") ++ m)
  | PyExn.jsonDecodeError _ => Except.ok ("Error parsing response from API server")
  | PyExn.otherError m => Except.ok (("Unexpected error: ") ++ m)

/-- `QwenModel._generate_via_api`: one POST to `{base}/query`;
`raise_for_status()` raises an `HTTPError` (a `RequestException`) on a 4xx
or 5xx status; then the JSON body must contain `response`.  All exceptions
are caught and rendered as returned text. -/
def generate_via_api (r : HttpResult ApiBody) : Except PyExn String :=
  match r with
  | HttpResult.raised e => apiHandle e
  | HttpResult.response status json =>
    if 400 ≤ status ∧ status < 600 then
      apiHandle (PyExn.requestException (("HTTP error ") ++ toString status))
    else
      match json with
      | Except.error e => apiHandle e
      | Except.ok body =>
        match body.response with
        | some t => Except.ok t
        | none => Except.ok ("Error: Unexpected response format from API")

/-- Concrete model-client behaviour that returns fixed text. -/
def genOk : String → Except String String := fun _ => Except.ok ("hello")

/-- Concrete model-client behaviour that raises. -/
def genBad : String → Except String String := fun _ => Except.error ("boom")

/-- Concrete subprocess oracle: every command completes with exit code 0. -/
def runner0 : String → ProcOutcome := fun _ => ProcOutcome.completed ("") ("") 0

/-- Concrete subprocess oracle matching `echo hi`. -/
def runnerEcho : String → ProcOutcome := fun _ => ProcOutcome.completed ("hi\n") ("") 0

/-- Claim C1, counterexample: the command `" ls"`, whose TRIMMED form starts
with the fast-path verb `ls`, is processed differently under two different
model-client behaviours, so the dispatcher does consult the model for it
(the raw command does not start with a fast-path verb). -/
theorem C1_counterexample :
    fastPath (pyStripStr (" ls")) = true ∧
    process_command genOk runner0 [] (" ls") ≠ process_command genBad runner0 [] (" ls") := by
  constructor
  · decide
  · decide

/-- Claim C1 (amended): for every command string that ITSELF (untrimmed)
starts with one of the literal verbs `ls`, `cd `, `pwd`, `cat `, `date`,
`echo `, processing never consults the model client: the returned pair is
identical for any two model-client behaviours, the reported action is
`shell_command`, and the executed action is `ShellCommand{command}`
synthesized directly from the input. -/
theorem C1_amended (command : String) (gen1 gen2 : String → Except String String)
    (runner : String → ProcOutcome) (hist : List String) (h : fastPath command = true) :
    process_command gen1 runner hist command = process_command gen2 runner hist command ∧
    (process_command gen1 runner hist command).2.action = some ("shell_command") ∧
    (process_command gen1 runner hist command).2.result
      = some (execute_action runner (Action.shell_command command)) := by
  refine ⟨?_, ?_, ?_⟩ <;> simp [process_command, h, actionType]

/-- Claim C1, witness for the amended theorem at the concrete command
`"ls -la"`. -/
theorem C1_witness :
    process_command genOk runner0 [] ("ls -la") = process_command genBad runner0 [] ("ls -la") ∧
    (process_command genOk runner0 [] ("ls -la")).2.action = some ("shell_command") :=
  ⟨(C1_amended ("ls -la") genOk genBad runner0 [] (by decide)).1,
   (C1_amended ("ls -la") genOk genBad runner0 [] (by decide)).2.1⟩

/-- Claim C3: constructing the model client with none of model path, remote
API URL, inference-server URL provided (in the Python sense: absent or
empty) raises a constructor error; otherwise exactly one mode is selected
with priority ollama (inference server) over api (remote) over direct
(local). -/
theorem C3_mode_selection (model_path api_url ollama_url : Option String) :
    (truthy model_path = false → truthy api_url = false → truthy ollama_url = false →
      qwenInit model_path api_url ollama_url
        = Except.error ("Either model_path, api_url, or ollama_url must be provided")) ∧
    (truthy ollama_url = true →
      qwenInit model_path api_url ollama_url = Except.ok Mode.ollama) ∧
    (truthy ollama_url = false → truthy api_url = true →
      qwenInit model_path api_url ollama_url = Except.ok Mode.api) ∧
    (truthy ollama_url = false → truthy api_url = false → truthy model_path = true →
      qwenInit model_path api_url ollama_url = Except.ok Mode.direct) := by
  refine ⟨?_, ?_, ?_, ?_⟩
  · intro h1 h2 h3; simp [qwenInit, h1, h2, h3]
  · intro h1; simp [qwenInit, h1]
  · intro h1 h2; simp [qwenInit, h1, h2]
  · intro h1 h2 h3; simp [qwenInit, h1, h2, h3]

/-- Claim C3, witness: no configuration fails; all three configured picks
the inference-server (ollama) mode. -/
theorem C3_witness :
    qwenInit none none none
      = Except.error ("Either model_path, api_url, or ollama_url must be provided") ∧
    qwenInit (some ("/m")) (some ("http://a")) (some ("http://o")) = Except.ok Mode.ollama :=
  ⟨(C3_mode_selection none none none).1 rfl rfl rfl,
   (C3_mode_selection (some ("/m")) (some ("http://a")) (some ("http://o"))).2.1 (by decide)⟩

/-- Claim C4: when none of the three ACTION patterns matches anywhere in the
response text, the parser returns a Respond action carrying exactly the
original text. -/
theorem C4_unparsed_fallback (s : String) (h1 : searchShell s.data = none)
    (h2 : searchRespond s.data = none) (h3 : searchError s.data = none) :
    parse_llm_response s = Action.response s := by
  simp [parse_llm_response, h1, h2, h3]

/-- Claim C4, witness at a concrete unstructured text. -/
theorem C4_witness : parse_llm_response ("The answer is 42.") = Action.response ("The answer is 42.") :=
  C4_unparsed_fallback ("The answer is 42.") (by decide) (by decide) (by decide)

/-- Claim C5, counterexample: executing a Respond action yields the result
dict `{"output": content}` with NO status field, refuting the claim that
every ExecutionResult carries a status of success or error. -/
theorem C5_counterexample :
    (execute_action runner0 (Action.response ("hi"))).status = none ∧
    (execute_action runner0 (Action.response ("hi"))).output = some ("hi") := by
  constructor <;> rfl

/-- Claim C5 (amended): only the non-empty shell case always carries a
status field (equal to success or error); the empty-command shell case
yields the bare dict `{"error": "Empty command"}`, the respond case the bare
dict `{"output": content}`, and the error case the bare dict
`{"error": reason}` — none of these three carries a status field. -/
theorem C5_amended (runner : String → ProcOutcome) (a : Action) :
    (∀ command, a = Action.shell_command command → pyStripStr command ≠ ("") →
      ((execute_action runner a).status = some ("success") ∨
       (execute_action runner a).status = some ("error"))) ∧
    (∀ command, a = Action.shell_command command → pyStripStr command = ("") →
      execute_action runner a = { error := some ("Empty command") }) ∧
    (∀ content, a = Action.response content →
      execute_action runner a = { output := some content }) ∧
    (∀ reason, a = Action.error reason →
      execute_action runner a = { error := some reason }) := by
  refine ⟨?_, ?_, ?_, ?_⟩
  · intro command ha hne
    subst ha
    have hred : execute_action runner (Action.shell_command command)
        = execute_shell_command runner (pyStripStr command) := rfl
    rw [hred]
    unfold execute_shell_command
    rw [if_neg hne]
    cases hr : runner (pyStripStr command) with
    | completed out err code =>
      by_cases hc : code = 0
      · left; simp [hc]
      · right; simp [hc]
    | timedOut => right; rfl
    | spawnFailed m => right; rfl
  · intro command ha he
    subst ha
    have hred : execute_action runner (Action.shell_command command)
        = execute_shell_command runner (pyStripStr command) := rfl
    rw [hred]
    unfold execute_shell_command
    rw [if_pos he]
  · intro content ha; subst ha; rfl
  · intro reason ha; subst ha; rfl

/-- Claim C5, witness for the amended theorem: a concrete non-empty shell
action has a status, a concrete error action yields the bare error dict. -/
theorem C5_witness :
    ((execute_action runner0 (Action.shell_command ("echo hi"))).status = some ("success") ∨
     (execute_action runner0 (Action.shell_command ("echo hi"))).status = some ("error")) ∧
    execute_action runner0 (Action.error ("bad")) = { error := some ("bad") } :=
  ⟨(C5_amended runner0 (Action.shell_command ("echo hi"))).1 ("echo hi") rfl (by decide),
   (C5_amended runner0 (Action.error ("bad"))).2.2.2 ("bad") rfl⟩

/-- Claim C7: for every non-empty command whose subprocess completes before
the timeout, the result status is success exactly when the exit code is 0
(error otherwise), and stdout, stderr and return_code are always
populated. -/
theorem C7_shell_completion (runner : String → ProcOutcome) (command out err : String)
    (code : Int) (h1 : command ≠ ("")) (h2 : runner command = ProcOutcome.completed out err code) :
    (execute_shell_command runner command).status
      = some (if code = 0 then ("success") else ("error")) ∧
    (execute_shell_command runner command).stdout = some out ∧
    (execute_shell_command runner command).stderr = some err ∧
    (execute_shell_command runner command).return_code = some code := by
  unfold execute_shell_command
  rw [if_neg h1, h2]
  by_cases hc : code = 0 <;> simp [hc]

/-- Claim C7, witness: `echo hi` completing with stdout `"hi\n"` and exit
code 0 yields a success result with all three fields populated. -/
theorem C7_witness :
    (execute_shell_command runnerEcho ("echo hi")).status = some ("success") ∧
    (execute_shell_command runnerEcho ("echo hi")).stdout = some ("hi\n") ∧
    (execute_shell_command runnerEcho ("echo hi")).return_code = some (0 : Int) := by
  have h := C7_shell_completion runnerEcho ("echo hi") ("hi\n") ("") 0 (by decide) rfl
  exact ⟨by simpa using h.1, h.2.1, h.2.2.2⟩

/-- Claim C8: parsing `"ACTION: shell\nCOMMAND: ls -la"` yields
`ShellCommand "ls -la"`, and in general every response in which the shell
pattern matches (yielding the COMMAND line text) parses to that
ShellCommand. -/
theorem C8_shell_roundtrip :
    parse_llm_response ("ACTION: shell\nCOMMAND: ls -la") = Action.shell_command ("ls -la") ∧
    ∀ (s command : String), searchShell s.data = some command →
      parse_llm_response s = Action.shell_command command := by
  constructor
  · decide
  · intro s command h; simp [parse_llm_response, h]

/-- Claim C8, witness for the general part: a case-insensitive tag inside
surrounding noise still parses to the ShellCommand of the COMMAND line. -/
theorem C8_witness :
    parse_llm_response ("noise\nACTION: SHELL\nCOMMAND:   pwd\nmore") = Action.shell_command ("pwd") :=
  C8_shell_roundtrip.2 ("noise\nACTION: SHELL\nCOMMAND:   pwd\nmore") ("pwd") (by decide)

/-- One `process` call seen only through its history component. -/
def historyStep (gen : String → Except String String) (runner : String → ProcOutcome)
    (hist : List String) (command : String) : List String :=
  (process_command gen runner hist command).1

theorem historyStep_append (gen : String → Except String String)
    (runner : String → ProcOutcome) (hist : List String) (command : String) :
    historyStep gen runner hist command = hist ++ [command] := by
  unfold historyStep process_command
  split
  · rfl
  · split <;> rfl

theorem foldl_history_len (gen : String → Except String String)
    (runner : String → ProcOutcome) (cmds : List String) :
    ∀ hist : List String,
      (List.foldl (historyStep gen runner) hist cmds).length = hist.length + cmds.length := by
  induction cmds with
  | nil => intro hist; simp
  | cons c cs ih =>
    intro hist
    rw [List.foldl_cons, historyStep_append, ih]
    simp
    omega

/-- Claim C9: for every sequence of process calls on one dispatcher
instance (history starting empty), the history length equals the number of
calls made, whatever each call returned; each call appends exactly its raw
command string to the history. -/
theorem C9_history_length (gen : String → Except String String)
    (runner : String → ProcOutcome) (cmds : List String) :
    (List.foldl (historyStep gen runner) [] cmds).length = cmds.length ∧
    (∀ hist command, historyStep gen runner hist command = hist ++ [command]) := by
  constructor
  · simpa using foldl_history_len gen runner cmds []
  · intro hist command; exact historyStep_append gen runner hist command

/-- Claim C10: the parser prefers the shell pattern over the respond
pattern irrespective of position in the text — whenever both a shell block
and a respond block are present, the result is the ShellCommand. -/
theorem C10_shell_precedence (s command : String) (h1 : searchShell s.data = some command)
    (_h2 : (searchRespond s.data).isSome = true) :
    parse_llm_response s = Action.shell_command command := by
  simp [parse_llm_response, h1]

/-- Claim C10, witness: a respond block appearing BEFORE a shell block
still parses to the ShellCommand. -/
theorem C10_witness :
    parse_llm_response ("ACTION: respond\nCONTENT: hi\n\nACTION: shell\nCOMMAND: ls")
      = Action.shell_command ("ls") :=
  C10_shell_precedence ("ACTION: respond\nCONTENT: hi\n\nACTION: shell\nCOMMAND: ls") ("ls")
    (by decide) (by decide)

/-- Claim C2: in Ollama mode, (1) a completion attempt answering HTTP 200
with a `response` field is returned as-is and the chat outcome is never
consulted; (2) in every other completion outcome the overall result is
exactly the chat stage applied to the chat outcome; (3) when both endpoints
fail via HTTP status, the returned text is the error string embedding the
last (chat) status code. -/
theorem C2_ollama_fallback (comp : HttpResult CompletionBody) (chat : HttpResult ChatBody) :
    (∀ (body : CompletionBody) (text : String),
      comp = HttpResult.response 200 (Except.ok body) → body.response = some text →
        generate_via_ollama comp chat = Except.ok text ∧
        ∀ chat2, generate_via_ollama comp chat2 = generate_via_ollama comp chat) ∧
    (compFirstText comp = none →
      generate_via_ollama comp chat = ollama_chat_stage chat) ∧
    (∀ (s1 : Nat) (j1 : Except PyExn CompletionBody) (s2 : Nat) (j2 : Except PyExn ChatBody),
      comp = HttpResult.response s1 j1 → s1 ≠ 200 →
      chat = HttpResult.response s2 j2 → s2 ≠ 200 →
        generate_via_ollama comp chat = Except.ok (ollamaStatusMsg s2) ∧
        ollamaStatusMsg s2
          = ("Error: Could not get a valid response from Ollama API. Status code: ") ++ toString s2) := by
  refine ⟨?_, ?_, ?_⟩
  · intro body text hc hr
    subst hc
    constructor
    · simp [generate_via_ollama, hr]
    · intro chat2; simp [generate_via_ollama, hr]
  · intro hnone
    cases comp with
    | raised e => rfl
    | response status json =>
      by_cases hs : status = 200
      · subst hs
        cases json with
        | error e => rfl
        | ok body =>
          have hb : body.response = none := by
            simpa [compFirstText] using hnone
          simp [generate_via_ollama, hb]
      · simp [generate_via_ollama, hs]
  · intro s1 j1 s2 j2 hc hs1 hch hs2
    subst hc; subst hch
    refine ⟨?_, rfl⟩
    simp [generate_via_ollama, ollama_chat_stage, hs1, hs2]

/-- Claim C2, witness: a successful completion returns its text directly
even against a raising chat endpoint; a 500 completion followed by a 404
chat returns the error text embedding 404. -/
theorem C2_witness :
    generate_via_ollama (HttpResult.response 200 (Except.ok { response := some ("yo") }))
        (HttpResult.raised (PyExn.requestException ("conn"))) = Except.ok ("yo") ∧
    generate_via_ollama (HttpResult.response 500 (Except.ok { response := none }))
        (HttpResult.response 404 (Except.ok { message := none })) = Except.ok (ollamaStatusMsg 404) :=
  ⟨((C2_ollama_fallback (HttpResult.response 200 (Except.ok { response := some ("yo") }))
      (HttpResult.raised (PyExn.requestException ("conn")))).1 { response := some ("yo") } ("yo")
      rfl rfl).1,
   ((C2_ollama_fallback (HttpResult.response 500 (Except.ok { response := none }))
      (HttpResult.response 404 (Except.ok { message := none }))).2.2 500
      (Except.ok { response := none }) 404 (Except.ok { message := none })
      rfl (by decide) rfl (by decide)).1⟩

theorem ollamaHandle_total (e : PyExn) : ∃ t, ollamaHandle e = Except.ok t := by
  cases e <;> exact ⟨_, rfl⟩

theorem apiHandle_total (e : PyExn) : ∃ t, apiHandle e = Except.ok t := by
  cases e <;> exact ⟨_, rfl⟩

theorem chat_stage_total (chat : HttpResult ChatBody) :
    ∃ t, ollama_chat_stage chat = Except.ok t := by
  unfold ollama_chat_stage
  repeat' split
  all_goals first
    | exact ollamaHandle_total _
    | exact ⟨_, rfl⟩

/-- Claim C6: in remote-API and inference-server (Ollama) modes, generate
always returns text — every transport outcome (raised exception, non-200
status, malformed JSON body, missing fields) is rendered as a returned
string, and no exception propagates to the caller. -/
theorem C6_generate_total (r : HttpResult ApiBody) (comp : HttpResult CompletionBody)
    (chat : HttpResult ChatBody) :
    (∃ s, generate_via_api r = Except.ok s) ∧
    (∃ t, generate_via_ollama comp chat = Except.ok t) := by
  constructor
  · unfold generate_via_api
    repeat' split
    all_goals first
      | exact apiHandle_total _
      | exact ⟨_, rfl⟩
  · unfold generate_via_ollama
    repeat' split
    all_goals first
      | exact chat_stage_total _
      | exact ⟨_, rfl⟩

end AgentSpec
